import Mathlib

/-
  Verification development for the devzero Terraform provider.

  Shallow embedding of the model and wire converters of the provider
  (internal/provider of the repository). Terraform framework attribute
  values (types.String, types.Bool, types.List, types.Map, ...) are
  modelled as a three-state value: null, unknown, or a concrete value,
  matching the framework semantics used by the Go code:
    - ValueString / ValueBool / ... return the zero value on null or unknown;
    - ValueStringPointer returns nil exactly on null;
    - Elements() of a null or unknown collection is empty.
  Protobuf enum fields are open integers in the generated Go code, so wire
  enums are embedded as Nat together with named constants; the numeric
  values of the label-selector-operator and HPA-metric constants are fixed
  by the unit tests of the repository, the Kubernetes-object-kind constants
  follow the standard proto numbering of the declaration order used in the
  source switches (the claims depend only on their distinctness).
  Float32 payloads are carried opaquely (no arithmetic is performed on
  them anywhere in the embedded code), so their carrier is Int.
  The errors.Join
  of several element conversion errors is modelled as the first element
  error; every claim depends only on success versus failure of a
  conversion, never on the error text.
-/

namespace Devzero

/-- Three-state Terraform attribute value: null, unknown, or a known value. -/
inductive TFValue (α : Type) where
| null : TFValue α
| unknown : TFValue α
| value : α → TFValue α
deriving DecidableEq, Repr

/-- IsNull of the framework. -/
def TFValue.isNull : TFValue α → Bool
| .null => true
| _ => false

/-- IsUnknown of the framework. -/
def TFValue.isUnknown : TFValue α → Bool
| .unknown => true
| _ => false

/-- The zero-value extraction used by ValueString, ValueBool, ValueInt32, ... -/
def TFValue.valueOr (d : α) : TFValue α → α
| .value a => a
| _ => d

abbrev TFString := TFValue String
abbrev TFBool := TFValue Bool
abbrev TFInt32 := TFValue Int
abbrev TFInt64 := TFValue Int

/-- Opaque carrier for Go float32 payloads (never computed with in this code). -/
abbrev GoFloat32 := Int

abbrev TFFloat32 := TFValue GoFloat32

/-- types.String.ValueString: the value, or the empty string on null or unknown. -/
def TFString.valueString (s : TFString) : String := s.valueOr ""

/-- types.Bool.ValueBool: the value, or false on null or unknown. -/
def TFBool.valueBool (b : TFBool) : Bool := b.valueOr false

/-- ValueStringPointer: nil exactly on null, otherwise a pointer to the
(zero-filled when unknown) value. -/
def TFValue.valuePointer (d : α) : TFValue α → Option α
| .null => none
| .unknown => some d
| .value a => some a

def TFString.valueStringPointer (s : TFString) : Option String := s.valuePointer ""
def TFInt32.valueInt32Pointer (n : TFInt32) : Option Int := n.valuePointer 0
def TFInt64.valueInt64Pointer (n : TFInt64) : Option Int := n.valuePointer 0
def TFBool.valueBoolPointer (b : TFBool) : Option Bool := b.valuePointer false
def TFFloat32.valueFloat32Pointer (x : TFFloat32) : Option GoFloat32 := x.valuePointer 0

/-- A Terraform list attribute: null, unknown, or a list of element values. -/
abbrev TFList (α : Type) := TFValue (List α)

/-- Elements() of the framework: empty for a null or unknown collection. -/
def tfElements (l : TFList α) : List α := l.valueOr []

/-- A Terraform map of strings, with the entries as an association list. -/
abbrev TFStringMap := TFValue (List (String × TFString))

/-- ToTerraformValue followed by As into a Go string: fails on null and on
unknown element values, succeeds on a known value (utils.go getElementList,
element step). -/
def tfStringToGo : TFString → Except String String
| .value s => .ok s
| .null => .error "null value"
| .unknown => .error "unknown value"

/-- utils.go getElementList specialised to string element extraction followed
by a converter; the Go code collects the element errors with errors.Join and
returns nil with the joined error when any element fails, modelled as the
first failing element error. -/
def getElementListString (converter : String → Except String α) :
    List TFString → Except String (List α)
| [] => .ok []
| x :: rest =>
  match tfStringToGo x with
  | .error e => .error e
  | .ok s =>
    match converter s with
    | .error e => .error e
    | .ok a =>
      match getElementListString converter rest with
      | .error e => .error e
      | .ok tail => .ok (a :: tail)

/-- utils.go getStringList: getElementList with the identity converter. -/
def getStringList (values : List TFString) : Except String (List String) :=
  getElementListString (fun s => .ok s) values

/-- utils.go getElementMap specialised to string values (getStringMap); the
map entries are carried as an association list. -/
def getStringMap : List (String × TFString) → Except String (List (String × String))
| [] => .ok []
| (k, v) :: rest =>
  match tfStringToGo v with
  | .error e => .error e
  | .ok s =>
    match getStringMap rest with
    | .error e => .error e
    | .ok tail => .ok ((k, s) :: tail)

/-- utils.go fromStringList: wraps every Go string as a known value. -/
def fromStringList (values : List String) : List TFString :=
  values.map TFValue.value

/-- utils.go fromStringMap. -/
def fromStringMap (values : List (String × String)) : List (String × TFString) :=
  values.map (fun p => (p.1, TFValue.value p.2))

/- Wire enum constants (generated proto enums are open Go integers). -/

def LABEL_SELECTOR_OPERATOR_UNSPECIFIED : Nat := 0
def LABEL_SELECTOR_OPERATOR_IN : Nat := 1
def LABEL_SELECTOR_OPERATOR_NOT_IN : Nat := 2
def LABEL_SELECTOR_OPERATOR_EXISTS : Nat := 3
def LABEL_SELECTOR_OPERATOR_DOES_NOT_EXIST : Nat := 4
def LABEL_SELECTOR_OPERATOR_GT : Nat := 5
def LABEL_SELECTOR_OPERATOR_LT : Nat := 6

def K8S_OBJECT_KIND_UNSPECIFIED : Nat := 0
def K8S_OBJECT_KIND_POD : Nat := 1
def K8S_OBJECT_KIND_JOB : Nat := 2
def K8S_OBJECT_KIND_DEPLOYMENT : Nat := 3
def K8S_OBJECT_KIND_STATEFUL_SET : Nat := 4
def K8S_OBJECT_KIND_DAEMON_SET : Nat := 5
def K8S_OBJECT_KIND_REPLICA_SET : Nat := 6
def K8S_OBJECT_KIND_CRON_JOB : Nat := 7
def K8S_OBJECT_KIND_REPLICATION_CONTROLLER : Nat := 8
def K8S_OBJECT_KIND_ARGO_ROLLOUT : Nat := 9

def HPA_METRIC_TYPE_UNSPECIFIED : Nat := 0
def HPA_METRIC_TYPE_CPU : Nat := 1
def HPA_METRIC_TYPE_MEMORY : Nat := 2
def HPA_METRIC_TYPE_GPU : Nat := 3
def HPA_METRIC_TYPE_NETWORK : Nat := 4

def ACTION_TRIGGER_UNSPECIFIED : Nat := 0
def ACTION_TRIGGER_ON_SCHEDULE : Nat := 1
def ACTION_TRIGGER_ON_DETECTION : Nat := 2

def DETECTION_TRIGGER_UNSPECIFIED : Nat := 0
def DETECTION_TRIGGER_POD_CREATION : Nat := 1
def DETECTION_TRIGGER_POD_UPDATE : Nat := 2

def INSTANCE_STORE_POLICY_RAID0 : Nat := 1

/-- node_policy.go labelSelectorOperatorToString: decode of the wire
label-selector operator, empty string on every unlisted wire value. -/
def labelSelectorOperatorToString (op : Nat) : String :=
  if op = LABEL_SELECTOR_OPERATOR_IN then "In"
  else if op = LABEL_SELECTOR_OPERATOR_NOT_IN then "NotIn"
  else if op = LABEL_SELECTOR_OPERATOR_EXISTS then "Exists"
  else if op = LABEL_SELECTOR_OPERATOR_DOES_NOT_EXIST then "DoesNotExist"
  else if op = LABEL_SELECTOR_OPERATOR_GT then "Gt"
  else if op = LABEL_SELECTOR_OPERATOR_LT then "Lt"
  else ""

/-- The operator switch of workload_policy_target.go LabelSelector.toProto:
the local enum variable keeps its zero value (UNSPECIFIED) on an unlisted
string; note that the toProto switch also accepts Gt and Lt. -/
def labelSelectorOperatorFromString (s : String) : Nat :=
  if s = "In" then LABEL_SELECTOR_OPERATOR_IN
  else if s = "NotIn" then LABEL_SELECTOR_OPERATOR_NOT_IN
  else if s = "Exists" then LABEL_SELECTOR_OPERATOR_EXISTS
  else if s = "DoesNotExist" then LABEL_SELECTOR_OPERATOR_DOES_NOT_EXIST
  else if s = "Gt" then LABEL_SELECTOR_OPERATOR_GT
  else if s = "Lt" then LABEL_SELECTOR_OPERATOR_LT
  else LABEL_SELECTOR_OPERATOR_UNSPECIFIED

/-- The per-element converter of workload_policy_target.go getKindFilters. -/
def kindFilterFromString (value : String) : Except String Nat :=
  if value = "Pod" then .ok K8S_OBJECT_KIND_POD
  else if value = "Job" then .ok K8S_OBJECT_KIND_JOB
  else if value = "Deployment" then .ok K8S_OBJECT_KIND_DEPLOYMENT
  else if value = "StatefulSet" then .ok K8S_OBJECT_KIND_STATEFUL_SET
  else if value = "DaemonSet" then .ok K8S_OBJECT_KIND_DAEMON_SET
  else if value = "ReplicaSet" then .ok K8S_OBJECT_KIND_REPLICA_SET
  else if value = "CronJob" then .ok K8S_OBJECT_KIND_CRON_JOB
  else if value = "ReplicationController" then .ok K8S_OBJECT_KIND_REPLICATION_CONTROLLER
  else if value = "Rollout" then .ok K8S_OBJECT_KIND_ARGO_ROLLOUT
  else .error ("invalid kind: " ++ value)

/-- workload_policy_target.go getKindFilters. -/
def getKindFilters (values : List TFString) : Except String (List Nat) :=
  getElementListString kindFilterFromString values

/-- workload_policy_target.go fromKindFilter: the switch has no default
case, so a wire value outside the listed constants appends nothing and the
element is dropped; the UNSPECIFIED wire value decodes to "Unspecified". -/
def fromKindFilter (kinds : List Nat) : List TFString :=
  kinds.foldr
    (fun kind acc =>
      if kind = K8S_OBJECT_KIND_POD then TFValue.value "Pod" :: acc
      else if kind = K8S_OBJECT_KIND_JOB then TFValue.value "Job" :: acc
      else if kind = K8S_OBJECT_KIND_DEPLOYMENT then TFValue.value "Deployment" :: acc
      else if kind = K8S_OBJECT_KIND_STATEFUL_SET then TFValue.value "StatefulSet" :: acc
      else if kind = K8S_OBJECT_KIND_DAEMON_SET then TFValue.value "DaemonSet" :: acc
      else if kind = K8S_OBJECT_KIND_REPLICA_SET then TFValue.value "ReplicaSet" :: acc
      else if kind = K8S_OBJECT_KIND_CRON_JOB then TFValue.value "CronJob" :: acc
      else if kind = K8S_OBJECT_KIND_REPLICATION_CONTROLLER then
        TFValue.value "ReplicationController" :: acc
      else if kind = K8S_OBJECT_KIND_ARGO_ROLLOUT then TFValue.value "Rollout" :: acc
      else if kind = K8S_OBJECT_KIND_UNSPECIFIED then TFValue.value "Unspecified" :: acc
      else acc)
    []

/-- node_policy.go instanceStorePolicyFromString: every string maps to RAID0. -/
def instanceStorePolicyFromString (s : String) : Nat :=
  if s = "RAID0" then INSTANCE_STORE_POLICY_RAID0
  else INSTANCE_STORE_POLICY_RAID0

/-- node_policy.go instanceStorePolicyToString. -/
def instanceStorePolicyToString (policy : Nat) : String :=
  if policy = INSTANCE_STORE_POLICY_RAID0 then "RAID0"
  else ""

/-- part_004 HorizontalScalingOptions.fromHPAMetric: decode of the wire HPA
metric type, empty string on every unlisted wire value. -/
def fromHPAMetric (metric : Nat) : String :=
  if metric = HPA_METRIC_TYPE_CPU then "cpu"
  else if metric = HPA_METRIC_TYPE_MEMORY then "memory"
  else if metric = HPA_METRIC_TYPE_GPU then "gpu"
  else if metric = HPA_METRIC_TYPE_NETWORK then "network"
  else ""

/- Label selectors (workload_policy_target.go). -/

/-- The attributes of one element of the match_expressions list attribute
(a types.Object with fields key, operator, values). -/
structure MatchExpressionAttrs where
  key : TFString
  operator : TFString
  values : TFList TFString
deriving DecidableEq, Repr

/-- workload_policy_target.go LabelSelector model. -/
structure LabelSelector where
  matchLabels : TFStringMap
  matchExpressions : TFList MatchExpressionAttrs
deriving DecidableEq, Repr

/-- Wire LabelSelectorRequirement message. -/
structure ProtoLabelSelectorRequirement where
  key : String
  operator : Nat
  values : List String
deriving DecidableEq, Repr

/-- Wire LabelSelector message. -/
structure ProtoLabelSelector where
  matchLabels : List (String × String)
  matchExpressions : List ProtoLabelSelectorRequirement
deriving DecidableEq, Repr

/-- The per-expression body of the loop in LabelSelector.toProto: the key and
operator strings default to the empty string on a null attribute (ValueString
also yields the empty string on unknown), a null values list yields an empty
Go slice, and a getStringList failure aborts the whole conversion. -/
def matchExpressionToProto (e : MatchExpressionAttrs) :
    Except String ProtoLabelSelectorRequirement :=
  let key := if !e.key.isNull then e.key.valueString else ""
  let operatorStr := if !e.operator.isNull then e.operator.valueString else ""
  let operator := labelSelectorOperatorFromString operatorStr
  match (if !e.values.isNull then getStringList (tfElements e.values) else .ok []) with
  | .error err => .error err
  | .ok values => .ok { key := key, operator := operator, values := values }

def matchExpressionsToProto :
    List MatchExpressionAttrs → Except String (List ProtoLabelSelectorRequirement)
| [] => .ok []
| e :: rest =>
  match matchExpressionToProto e with
  | .error err => .error err
  | .ok r =>
    match matchExpressionsToProto rest with
    | .error err => .error err
    | .ok tail => .ok (r :: tail)

/-- workload_policy_target.go LabelSelector.toProto, including the nil
receiver short-circuit (a nil selector encodes to a nil wire message). -/
def LabelSelector.toProto : Option LabelSelector → Except String (Option ProtoLabelSelector)
| none => .ok none
| some l =>
  match getStringMap (tfElements l.matchLabels) with
  | .error err => .error err
  | .ok matchLabels =>
    match matchExpressionsToProto (tfElements l.matchExpressions) with
    | .error err => .error err
    | .ok matchExpressions =>
      .ok (some { matchLabels := matchLabels, matchExpressions := matchExpressions })

/-- One decoded match expression of LabelSelector.fromProto: the operator
switch there is the same mapping as labelSelectorOperatorToString (it leaves
the operator string empty on an unlisted wire value). -/
def matchExpressionFromProto (e : ProtoLabelSelectorRequirement) : MatchExpressionAttrs :=
  { key := TFValue.value e.key
  , operator := TFValue.value (labelSelectorOperatorToString e.operator)
  , values := TFValue.value (fromStringList e.values) }

/-- The field assignments of LabelSelector.fromProto performed through a
non-nil receiver: an empty wire map or expression list decodes to a null
attribute, otherwise to the element-wise decoded collection. -/
def LabelSelector.decodeProto (selector : ProtoLabelSelector) : LabelSelector :=
  { matchLabels :=
      if selector.matchLabels.length = 0 then TFValue.null
      else TFValue.value (fromStringMap selector.matchLabels)
  , matchExpressions :=
      if selector.matchExpressions.length = 0 then TFValue.null
      else TFValue.value (selector.matchExpressions.map matchExpressionFromProto) }

/-- workload_policy_target.go LabelSelector.fromProto as seen by the caller:
the method receives a copy of the caller pointer, so the two reassignments of
the local receiver (m = nil for a nil wire message, m = new struct for a nil
receiver) never reach the caller field; only mutation through a non-nil
receiver on a non-nil wire message does. -/
def LabelSelector.fromProtoCaller (m : Option LabelSelector)
    (selector : Option ProtoLabelSelector) : Option LabelSelector :=
  match selector, m with
  | none, _ => m
  | some _, none => none
  | some w, some _ => some (LabelSelector.decodeProto w)

/- Regex patterns (workload_policy_target.go). -/

structure RegexPattern where
  pattern : TFString
  flags : TFString
deriving DecidableEq, Repr

structure ProtoRegexPattern where
  pattern : String
  flags : String
deriving DecidableEq, Repr

/-- workload_policy_target.go RegexPattern.toProto (nil receiver encodes to nil). -/
def RegexPattern.toProto : Option RegexPattern → Option ProtoRegexPattern
| none => none
| some r => some { pattern := r.pattern.valueString, flags := r.flags.valueString }

/-- The field assignments of RegexPattern.fromProto through a non-nil receiver. -/
def RegexPattern.decodeProto (p : ProtoRegexPattern) : RegexPattern :=
  { pattern := TFValue.value p.pattern, flags := TFValue.value p.flags }

/-- workload_policy_target.go RegexPattern.fromProto as seen by the caller
(same pointer-receiver reassignment pattern as LabelSelector.fromProto). -/
def RegexPattern.fromProtoCaller (m : Option RegexPattern)
    (pattern : Option ProtoRegexPattern) : Option RegexPattern :=
  match pattern, m with
  | none, _ => m
  | some _, none => none
  | some w, some _ => some (RegexPattern.decodeProto w)

/- Node policy target (node_policy_target.go). -/

structure NodePolicyTargetResourceModel where
  id : TFString
  policyId : TFString
  name : TFString
  description : TFString
  enabled : TFBool
  clusterIds : TFList TFString
deriving DecidableEq, Repr

structure ProtoNodePolicyTarget where
  targetId : String
  name : String
  description : String
  teamId : String
  clusterIds : List String
  policyId : String
  enabled : Bool
deriving DecidableEq, Repr

/-- node_policy_target.go NodePolicyTargetResourceModel.toProto: a cluster-ID
conversion failure adds a diagnostic and returns nil, modelled as an error. -/
def NodePolicyTargetResourceModel.toProto (m : NodePolicyTargetResourceModel)
    (teamId : String) : Except String ProtoNodePolicyTarget :=
  match getStringList (tfElements m.clusterIds) with
  | .error err => .error err
  | .ok clusterIds =>
    .ok { targetId := m.id.valueString
        , name := m.name.valueString
        , description := m.description.valueString
        , teamId := teamId
        , clusterIds := clusterIds
        , policyId := m.policyId.valueString
        , enabled := m.enabled.valueBool }

/-- node_policy_target.go NodePolicyTargetResourceModel.fromProto: every
model field is overwritten from the wire message. -/
def NodePolicyTargetResourceModel.fromProto (target : ProtoNodePolicyTarget) :
    NodePolicyTargetResourceModel :=
  { id := TFValue.value target.targetId
  , policyId := TFValue.value target.policyId
  , name := TFValue.value target.name
  , description := TFValue.value target.description
  , enabled := TFValue.value target.enabled
  , clusterIds := TFValue.value (fromStringList target.clusterIds) }

/- Workload policy (part_004, WorkloadPolicyResource). -/

structure VerticalScalingOptions where
  enabled : TFBool
  minRequest : TFInt64
  maxRequest : TFInt64
  overheadMultiplier : TFFloat32
  limitsAdjustmentEnabled : TFBool
  targetPercentile : TFFloat32
  maxScaleUpPercent : TFFloat32
  maxScaleDownPercent : TFFloat32
  limitMultiplier : TFFloat32
  minDataPoints : TFInt32
deriving DecidableEq, Repr

structure HorizontalScalingOptions where
  enabled : TFBool
  minReplicas : TFInt32
  maxReplicas : TFInt32
  targetUtilization : TFFloat32
  primaryMetric : TFString
  minDataPoints : TFInt32
  maxReplicaChangePercent : TFFloat32
deriving DecidableEq, Repr

structure ProtoVerticalScalingOptimizationTarget where
  enabled : Bool
  minRequest : Option Int
  maxRequest : Option Int
  overheadMultiplier : Option GoFloat32
  limitsAdjustmentEnabled : Option Bool
  targetPercentile : Option GoFloat32
  maxScaleUpPercent : Option GoFloat32
  maxScaleDownPercent : Option GoFloat32
  limitMultiplier : Option GoFloat32
  minDataPoints : Option Int
deriving DecidableEq, Repr

structure ProtoHorizontalScalingOptimizationTarget where
  enabled : Bool
  minReplicas : Option Int
  maxReplicas : Option Int
  targetUtilization : Option GoFloat32
  primaryMetric : Option Nat
  minDataPoints : Option Int
  maxReplicaChangePercent : Option GoFloat32
deriving DecidableEq, Repr

/-- part_004 VerticalScalingOptions.toProto (nil receiver encodes to nil). -/
def VerticalScalingOptions.toProto :
    Option VerticalScalingOptions → Option ProtoVerticalScalingOptimizationTarget
| none => none
| some o =>
  some { enabled := o.enabled.valueBool
       , minRequest := o.minRequest.valueInt64Pointer
       , maxRequest := o.maxRequest.valueInt64Pointer
       , overheadMultiplier := o.overheadMultiplier.valueFloat32Pointer
       , limitsAdjustmentEnabled := o.limitsAdjustmentEnabled.valueBoolPointer
       , targetPercentile := o.targetPercentile.valueFloat32Pointer
       , maxScaleUpPercent := o.maxScaleUpPercent.valueFloat32Pointer
       , maxScaleDownPercent := o.maxScaleDownPercent.valueFloat32Pointer
       , limitMultiplier := o.limitMultiplier.valueFloat32Pointer
       , minDataPoints := o.minDataPoints.valueInt32Pointer }

/-- The field assignments of VerticalScalingOptions.fromProto through a
non-nil receiver: a nil optional wire field leaves the old model field. -/
def VerticalScalingOptions.decodeProto (old : VerticalScalingOptions)
    (target : ProtoVerticalScalingOptimizationTarget) : VerticalScalingOptions :=
  { enabled := TFValue.value target.enabled
  , minRequest :=
      match target.minRequest with
      | some v => TFValue.value v
      | none => old.minRequest
  , maxRequest :=
      match target.maxRequest with
      | some v => TFValue.value v
      | none => old.maxRequest
  , overheadMultiplier :=
      match target.overheadMultiplier with
      | some v => TFValue.value v
      | none => old.overheadMultiplier
  , limitsAdjustmentEnabled :=
      match target.limitsAdjustmentEnabled with
      | some v => TFValue.value v
      | none => old.limitsAdjustmentEnabled
  , targetPercentile :=
      match target.targetPercentile with
      | some v => TFValue.value v
      | none => old.targetPercentile
  , maxScaleUpPercent :=
      match target.maxScaleUpPercent with
      | some v => TFValue.value v
      | none => old.maxScaleUpPercent
  , maxScaleDownPercent :=
      match target.maxScaleDownPercent with
      | some v => TFValue.value v
      | none => old.maxScaleDownPercent
  , limitMultiplier :=
      match target.limitMultiplier with
      | some v => TFValue.value v
      | none => old.limitMultiplier
  , minDataPoints :=
      match target.minDataPoints with
      | some v => TFValue.value v
      | none => old.minDataPoints }

/-- part_004 VerticalScalingOptions.fromProto as seen by the caller (the
pointer-receiver reassignments are invisible to the caller field). -/
def VerticalScalingOptions.fromProtoCaller (o : Option VerticalScalingOptions)
    (target : Option ProtoVerticalScalingOptimizationTarget) :
    Option VerticalScalingOptions :=
  match target, o with
  | none, _ => o
  | some _, none => none
  | some w, some old => some (VerticalScalingOptions.decodeProto old w)

/-- part_004 HorizontalScalingOptions.toHPAMetric: nil on an unlisted string. -/
def HorizontalScalingOptions.toHPAMetric (o : HorizontalScalingOptions) : Option Nat :=
  if o.primaryMetric.valueString = "cpu" then some HPA_METRIC_TYPE_CPU
  else if o.primaryMetric.valueString = "memory" then some HPA_METRIC_TYPE_MEMORY
  else if o.primaryMetric.valueString = "gpu" then some HPA_METRIC_TYPE_GPU
  else if o.primaryMetric.valueString = "network" then some HPA_METRIC_TYPE_NETWORK
  else none

/-- part_004 HorizontalScalingOptions.toProto (nil receiver encodes to nil). -/
def HorizontalScalingOptions.toProto :
    Option HorizontalScalingOptions → Option ProtoHorizontalScalingOptimizationTarget
| none => none
| some o =>
  some { enabled := o.enabled.valueBool
       , minReplicas := o.minReplicas.valueInt32Pointer
       , maxReplicas := o.maxReplicas.valueInt32Pointer
       , targetUtilization := o.targetUtilization.valueFloat32Pointer
       , primaryMetric := o.toHPAMetric
       , minDataPoints := o.minDataPoints.valueInt32Pointer
       , maxReplicaChangePercent := o.maxReplicaChangePercent.valueFloat32Pointer }

/-- The field assignments of HorizontalScalingOptions.fromProto through a
non-nil receiver; GetPrimaryMetric() yields the zero enum value on a nil
wire field. -/
def HorizontalScalingOptions.decodeProto (old : HorizontalScalingOptions)
    (target : ProtoHorizontalScalingOptimizationTarget) : HorizontalScalingOptions :=
  { enabled := TFValue.value target.enabled
  , minReplicas :=
      match target.minReplicas with
      | some v => TFValue.value v
      | none => old.minReplicas
  , maxReplicas :=
      match target.maxReplicas with
      | some v => TFValue.value v
      | none => old.maxReplicas
  , targetUtilization :=
      match target.targetUtilization with
      | some v => TFValue.value v
      | none => old.targetUtilization
  , primaryMetric := TFValue.value (fromHPAMetric (target.primaryMetric.getD 0))
  , minDataPoints :=
      match target.minDataPoints with
      | some v => TFValue.value v
      | none => old.minDataPoints
  , maxReplicaChangePercent :=
      match target.maxReplicaChangePercent with
      | some v => TFValue.value v
      | none => old.maxReplicaChangePercent }

/-- part_004 HorizontalScalingOptions.fromProto as seen by the caller. -/
def HorizontalScalingOptions.fromProtoCaller (o : Option HorizontalScalingOptions)
    (target : Option ProtoHorizontalScalingOptimizationTarget) :
    Option HorizontalScalingOptions :=
  match target, o with
  | none, _ => o
  | some _, none => none
  | some w, some old => some (HorizontalScalingOptions.decodeProto old w)

structure WorkloadPolicyResourceModel where
  id : TFString
  name : TFString
  description : TFString
  actionTriggers : TFList TFString
  cronSchedule : TFString
  detectionTriggers : TFList TFString
  loopbackPeriodSeconds : TFInt32
  startupPeriodSeconds : TFInt32
  cpuVerticalScaling : Option VerticalScalingOptions
  memoryVerticalScaling : Option VerticalScalingOptions
  gpuVerticalScaling : Option VerticalScalingOptions
  gpuVramVerticalScaling : Option VerticalScalingOptions
  horizontalScaling : Option HorizontalScalingOptions
  liveMigrationEnabled : TFBool
  schedulerPlugins : TFList TFString
  defragmentationSchedule : TFString
  minChangePercent : TFFloat32
  minDataPoints : TFInt32
  stabilityCvMax : TFFloat32
  hysteresisVsTarget : TFFloat32
  driftDeltaPercent : TFFloat32
  minVpaWindowDataPoints : TFInt32
  cooldownMinutes : TFInt32
deriving DecidableEq, Repr

structure ProtoWorkloadRecommendationPolicy where
  policyId : String
  teamId : String
  name : String
  description : String
  actionTriggers : List Nat
  cronSchedule : Option String
  detectionTriggers : List Nat
  cpuVerticalScaling : Option ProtoVerticalScalingOptimizationTarget
  memoryVerticalScaling : Option ProtoVerticalScalingOptimizationTarget
  gpuVerticalScaling : Option ProtoVerticalScalingOptimizationTarget
  gpuVramVerticalScaling : Option ProtoVerticalScalingOptimizationTarget
  horizontalScaling : Option ProtoHorizontalScalingOptimizationTarget
  liveMigrationEnabled : Bool
  schedulerPlugins : List String
  defragmentationSchedule : Option String
deriving DecidableEq, Repr

/-- The per-element action trigger converter of WorkloadPolicyResourceModel.toProto. -/
def actionTriggerFromString (value : String) : Except String Nat :=
  if value = "on_schedule" then .ok ACTION_TRIGGER_ON_SCHEDULE
  else if value = "on_detection" then .ok ACTION_TRIGGER_ON_DETECTION
  else .error ("invalid action trigger: " ++ value)

/-- The per-element detection trigger converter of WorkloadPolicyResourceModel.toProto. -/
def detectionTriggerFromString (value : String) : Except String Nat :=
  if value = "pod_creation" then .ok DETECTION_TRIGGER_POD_CREATION
  else if value = "pod_update" then .ok DETECTION_TRIGGER_POD_UPDATE
  else .error ("invalid detection trigger: " ++ value)

/-- part_004 WorkloadPolicyResourceModel.toProto: the result is the wire
message (nil on a conversion failure) together with the diagnostics-error
flag the method sets through its diags argument. -/
def WorkloadPolicyResourceModel.toProto (m : WorkloadPolicyResourceModel)
    (teamId : String) : Option ProtoWorkloadRecommendationPolicy × Bool :=
  match getElementListString actionTriggerFromString (tfElements m.actionTriggers) with
  | .error _ => (none, true)
  | .ok actionTriggers =>
    match getElementListString detectionTriggerFromString (tfElements m.detectionTriggers) with
    | .error _ => (none, true)
    | .ok detectionTriggers =>
      match getStringList (tfElements m.schedulerPlugins) with
      | .error _ => (none, true)
      | .ok schedulerPlugins =>
        (some { policyId := m.id.valueString
              , teamId := teamId
              , name := m.name.valueString
              , description := m.description.valueString
              , actionTriggers := actionTriggers
              , cronSchedule := m.cronSchedule.valueStringPointer
              , detectionTriggers := detectionTriggers
              , cpuVerticalScaling := VerticalScalingOptions.toProto m.cpuVerticalScaling
              , memoryVerticalScaling := VerticalScalingOptions.toProto m.memoryVerticalScaling
              , gpuVerticalScaling := VerticalScalingOptions.toProto m.gpuVerticalScaling
              , gpuVramVerticalScaling :=
                  VerticalScalingOptions.toProto m.gpuVramVerticalScaling
              , horizontalScaling := HorizontalScalingOptions.toProto m.horizontalScaling
              , liveMigrationEnabled := m.liveMigrationEnabled.valueBool
              , schedulerPlugins := schedulerPlugins
              , defragmentationSchedule := m.defragmentationSchedule.valueStringPointer }
        , false)

/-- The action trigger decode loop of WorkloadPolicyResourceModel.fromProto:
an unlisted wire value leaves the local types.String at its zero value (null). -/
def actionTriggerToTF (actionTrigger : Nat) : TFString :=
  if actionTrigger = ACTION_TRIGGER_ON_SCHEDULE then TFValue.value "on_schedule"
  else if actionTrigger = ACTION_TRIGGER_ON_DETECTION then TFValue.value "on_detection"
  else TFValue.null

/-- The detection trigger decode loop of WorkloadPolicyResourceModel.fromProto. -/
def detectionTriggerToTF (detectionTrigger : Nat) : TFString :=
  if detectionTrigger = DETECTION_TRIGGER_POD_CREATION then TFValue.value "pod_creation"
  else if detectionTrigger = DETECTION_TRIGGER_POD_UPDATE then TFValue.value "pod_update"
  else TFValue.null

/-- part_004 WorkloadPolicyResourceModel.fromProto: the method dereferences
the optional CronSchedule and DefragmentationSchedule wire pointers without a
nil check, so the decode panics (result none) exactly when either is nil; the
nested scaling blocks are decoded through the pointer-receiver fromProto
methods, whose effect on the caller fields is fromProtoCaller; the model
fields the method never assigns keep their prior values. -/
def WorkloadPolicyResourceModel.fromProto (m : WorkloadPolicyResourceModel)
    (policy : ProtoWorkloadRecommendationPolicy) : Option WorkloadPolicyResourceModel :=
  match policy.cronSchedule with
  | none => none
  | some cron =>
    match policy.defragmentationSchedule with
    | none => none
    | some defrag =>
      some { id := TFValue.value policy.policyId
           , name := TFValue.value policy.name
           , description := TFValue.value policy.description
           , actionTriggers :=
               TFValue.value (policy.actionTriggers.map actionTriggerToTF)
           , cronSchedule := TFValue.value cron
           , detectionTriggers :=
               TFValue.value (policy.detectionTriggers.map detectionTriggerToTF)
           , loopbackPeriodSeconds := m.loopbackPeriodSeconds
           , startupPeriodSeconds := m.startupPeriodSeconds
           , cpuVerticalScaling :=
               VerticalScalingOptions.fromProtoCaller m.cpuVerticalScaling
                 policy.cpuVerticalScaling
           , memoryVerticalScaling :=
               VerticalScalingOptions.fromProtoCaller m.memoryVerticalScaling
                 policy.memoryVerticalScaling
           , gpuVerticalScaling :=
               VerticalScalingOptions.fromProtoCaller m.gpuVerticalScaling
                 policy.gpuVerticalScaling
           , gpuVramVerticalScaling :=
               VerticalScalingOptions.fromProtoCaller m.gpuVramVerticalScaling
                 policy.gpuVramVerticalScaling
           , horizontalScaling :=
               HorizontalScalingOptions.fromProtoCaller m.horizontalScaling
                 policy.horizontalScaling
           , liveMigrationEnabled := TFValue.value policy.liveMigrationEnabled
           , schedulerPlugins :=
               TFValue.value (fromStringList policy.schedulerPlugins)
           , defragmentationSchedule := TFValue.value defrag
           , minChangePercent := m.minChangePercent
           , minDataPoints := m.minDataPoints
           , stabilityCvMax := m.stabilityCvMax
           , hysteresisVsTarget := m.hysteresisVsTarget
           , driftDeltaPercent := m.driftDeltaPercent
           , minVpaWindowDataPoints := m.minVpaWindowDataPoints
           , cooldownMinutes := m.cooldownMinutes }

/- Workload policy target (workload_policy_target.go). -/

structure WorkloadPolicyTargetResourceModel where
  id : TFString
  policyId : TFString
  name : TFString
  description : TFString
  priority : TFInt32
  enabled : TFBool
  namespaceSelector : Option LabelSelector
  workloadSelector : Option LabelSelector
  kindFilter : TFList TFString
  namePattern : Option RegexPattern
  workloadNames : TFList TFString
  nodeGroupNames : TFList TFString
  clusterIds : TFList TFString
deriving DecidableEq, Repr

/- RPC calls and the remote backend. -/

/-- The outbound RPC invocations the handlers can make (payloads kept where a
claim depends on them). -/
inductive RpcCall where
| createNodePolicies (teamId : String)
| updateNodePolicy (teamId : String)
| createNodePolicyTargets (targets : List ProtoNodePolicyTarget)
| updateNodePolicyTarget (target : ProtoNodePolicyTarget)
| createWorkloadRecommendationPolicy (teamId : String)
    (policy : Option ProtoWorkloadRecommendationPolicy)
| updateWorkloadRecommendationPolicy (teamId : String)
    (policy : Option ProtoWorkloadRecommendationPolicy)
| deleteWorkloadRecommendationPolicy (teamId : String) (policyId : String)
| createWorkloadPolicyTarget (teamId : String)
| updateWorkloadPolicyTarget (teamId : String) (targetId : String)
| deleteWorkloadPolicyTarget (teamId : String) (targetIds : List String)
| updateCluster (teamId : String) (clusterId : String) (clusterName : String)
| resetClusterToken (teamId : String) (clusterId : String)
| deleteCluster (teamId : String) (clusterId : String)
deriving DecidableEq, Repr

/-- The remote records, by identifier (payloads owned by the remote service). -/
structure Backend where
  nodePolicyIds : List String
  nodePolicyTargetIds : List String
  workloadPolicyIds : List String
  workloadPolicyTargetIds : List String
  clusterIds : List String
deriving DecidableEq, Repr

/-- Effect of one RPC on the remote record tables: the delete RPCs remove the
addressed records; creates and updates never remove a record (their payload
semantics are owned by the remote service and irrelevant to the delete
claims, so they are identity on the id tables here). -/
def runCall (b : Backend) : RpcCall → Backend
| .deleteWorkloadRecommendationPolicy _ policyId =>
  { b with workloadPolicyIds := b.workloadPolicyIds.erase policyId }
| .deleteWorkloadPolicyTarget _ targetIds =>
  { b with workloadPolicyTargetIds :=
      b.workloadPolicyTargetIds.filter (fun i => !targetIds.contains i) }
| .deleteCluster _ clusterId =>
  { b with clusterIds := b.clusterIds.erase clusterId }
| _ => b

def runCalls (b : Backend) (calls : List RpcCall) : Backend :=
  calls.foldl runCall b

/-- Whether a fetch of a node policy by id from the backend still finds it. -/
def Backend.hasNodePolicy (b : Backend) (id : String) : Bool :=
  b.nodePolicyIds.contains id

/-- Whether a fetch of a node policy target by id from the backend still finds it. -/
def Backend.hasNodePolicyTarget (b : Backend) (id : String) : Bool :=
  b.nodePolicyTargetIds.contains id

/- Resource lifecycle handlers (embedded up to their observable effects). -/

structure DeleteOutcome where
  calls : List RpcCall
  warned : Bool
  diagError : Bool
  removedFromState : Bool
deriving DecidableEq, Repr

/-- node_policy.go NodePolicyResource.Delete: reads the prior state (failure
abstracted by stateGetOk), then only logs a warning and returns; it makes no
RPC, and the framework removes the resource from local state exactly when the
handler added no error diagnostic. -/
def NodePolicyResource.deleteOp (stateGetOk : Bool) : DeleteOutcome :=
  if stateGetOk then
    { calls := [], warned := true, diagError := false, removedFromState := true }
  else
    { calls := [], warned := false, diagError := true, removedFromState := false }

/-- node_policy_target.go NodePolicyTargetResource.Delete: identical no-op
shape to NodePolicyResource.Delete. -/
def NodePolicyTargetResource.deleteOp (stateGetOk : Bool) : DeleteOutcome :=
  if stateGetOk then
    { calls := [], warned := true, diagError := false, removedFromState := true }
  else
    { calls := [], warned := false, diagError := true, removedFromState := false }

/-- part_004 WorkloadPolicyResource.Delete (for contrast with the no-op
deletes): it issues the remote delete RPC. -/
def WorkloadPolicyResource.deleteOp (stateGetOk : Bool) (teamId : String)
    (policyId : String) (rpcOk : Bool) : DeleteOutcome :=
  if !stateGetOk then
    { calls := [], warned := false, diagError := true, removedFromState := false }
  else if rpcOk then
    { calls := [RpcCall.deleteWorkloadRecommendationPolicy teamId policyId]
    , warned := false, diagError := false, removedFromState := true }
  else
    { calls := [RpcCall.deleteWorkloadRecommendationPolicy teamId policyId]
    , warned := false, diagError := true, removedFromState := false }

/-- node_policy.go NodePolicyResource.Create, embedded up to the RPC
invocation; the model-to-wire conversion of the large NodePolicyResourceModel
is abstracted by its observable outcome convDiagError (NodePolicyResourceModel
toProto adds a diagnostic exactly when it fails). The handler returns before
the RPC after a failed plan read or a conversion diagnostic. -/
def NodePolicyResource.createOp (planGetOk : Bool) (convDiagError : Bool)
    (teamId : String) : List RpcCall × Bool :=
  if !planGetOk then ([], true)
  else if convDiagError then ([], true)
  else ([RpcCall.createNodePolicies teamId], false)

/-- node_policy.go NodePolicyResource.Update, embedded up to the RPC
invocation (the diagnostics are checked after the request is built and before
the RPC is sent). -/
def NodePolicyResource.updateOp (planGetOk : Bool) (convDiagError : Bool)
    (teamId : String) : List RpcCall × Bool :=
  if !planGetOk then ([], true)
  else if convDiagError then ([], true)
  else ([RpcCall.updateNodePolicy teamId], false)

/-- node_policy_target.go NodePolicyTargetResource.Create, embedded up to the
RPC invocation. -/
def NodePolicyTargetResource.createOp (m : NodePolicyTargetResourceModel)
    (teamId : String) : List RpcCall × Bool :=
  match m.toProto teamId with
  | .error _ => ([], true)
  | .ok target => ([RpcCall.createNodePolicyTargets [target]], false)

/-- node_policy_target.go NodePolicyTargetResource.Update, embedded up to the
RPC invocation (request built first, diagnostics checked before the RPC). -/
def NodePolicyTargetResource.updateOp (m : NodePolicyTargetResourceModel)
    (teamId : String) : List RpcCall × Bool :=
  match m.toProto teamId with
  | .error _ => ([], true)
  | .ok target => ([RpcCall.updateNodePolicyTarget target], false)

/-- workload_policy_target.go WorkloadPolicyTargetResource.Create, embedded up
to the RPC invocation: six conversions in source order, each failure adds a
diagnostic and returns before the RPC (RegexPattern.toProto cannot fail). -/
def WorkloadPolicyTargetResource.createOp (m : WorkloadPolicyTargetResourceModel)
    (teamId : String) : List RpcCall × Bool :=
  match getKindFilters (tfElements m.kindFilter) with
  | .error _ => ([], true)
  | .ok _ =>
  match getStringList (tfElements m.workloadNames) with
  | .error _ => ([], true)
  | .ok _ =>
  match getStringList (tfElements m.nodeGroupNames) with
  | .error _ => ([], true)
  | .ok _ =>
  match getStringList (tfElements m.clusterIds) with
  | .error _ => ([], true)
  | .ok _ =>
  match LabelSelector.toProto m.namespaceSelector with
  | .error _ => ([], true)
  | .ok _ =>
  match LabelSelector.toProto m.workloadSelector with
  | .error _ => ([], true)
  | .ok _ => ([RpcCall.createWorkloadPolicyTarget teamId], false)

/-- workload_policy_target.go WorkloadPolicyTargetResource.Update, embedded up
to the RPC invocation (same conversion sequence as Create). -/
def WorkloadPolicyTargetResource.updateOp (m : WorkloadPolicyTargetResourceModel)
    (teamId : String) : List RpcCall × Bool :=
  match getKindFilters (tfElements m.kindFilter) with
  | .error _ => ([], true)
  | .ok _ =>
  match getStringList (tfElements m.workloadNames) with
  | .error _ => ([], true)
  | .ok _ =>
  match getStringList (tfElements m.nodeGroupNames) with
  | .error _ => ([], true)
  | .ok _ =>
  match getStringList (tfElements m.clusterIds) with
  | .error _ => ([], true)
  | .ok _ =>
  match LabelSelector.toProto m.namespaceSelector with
  | .error _ => ([], true)
  | .ok _ =>
  match LabelSelector.toProto m.workloadSelector with
  | .error _ => ([], true)
  | .ok _ => ([RpcCall.updateWorkloadPolicyTarget teamId m.id.valueString], false)

/-- part_004 WorkloadPolicyResource.Create, embedded up to the RPC
invocation: unlike every other resource, the handler never consults the
diagnostics after toProto, so the create RPC is issued even when the
conversion failed, with a nil Policy field in the request. -/
def WorkloadPolicyResource.createOp (m : WorkloadPolicyResourceModel)
    (teamId : String) : List RpcCall × Bool :=
  let conv := m.toProto teamId
  ([RpcCall.createWorkloadRecommendationPolicy teamId conv.1], conv.2)

/-- part_004 WorkloadPolicyResource.Update, embedded up to the RPC
invocation: same missing diagnostics check as Create. -/
def WorkloadPolicyResource.updateOp (m : WorkloadPolicyResourceModel)
    (teamId : String) : List RpcCall × Bool :=
  let conv := m.toProto teamId
  ([RpcCall.updateWorkloadRecommendationPolicy teamId conv.1], conv.2)

/-- part_004 WorkloadPolicyResource.Read from the RPC response on: a
transport error or a nil policy in the response adds a diagnostic and keeps
no new state; otherwise the response is decoded by fromProto, whose nil
pointer dereference propagates (outcome none means the handler panics). -/
def WorkloadPolicyResource.readOp (m : WorkloadPolicyResourceModel)
    (rpcResp : Except String (Option ProtoWorkloadRecommendationPolicy)) :
    Option (Bool × Option WorkloadPolicyResourceModel) :=
  match rpcResp with
  | .error _ => some (true, none)
  | .ok none => some (true, none)
  | .ok (some policy) =>
    match m.fromProto policy with
    | none => none
    | some updated => some (false, some updated)

/- Cluster resource (part_004, ClusterResource). -/

structure ClusterResourceModel where
  id : TFString
  name : TFString
  token : TFString
deriving DecidableEq, Repr

structure ProtoCluster where
  id : String
  name : String
  customName : String
deriving DecidableEq, Repr

structure ClusterUpdateOutcome where
  calls : List RpcCall
  savedState : Option ClusterResourceModel
  diagError : Bool
deriving DecidableEq, Repr

/-- The rotation condition of ClusterResource.Update (and ModifyPlan):
the prior token is null, unknown, or holds the empty string. -/
def tokenEmpty (t : TFString) : Bool :=
  t.isNull || t.isUnknown || decide (t.valueString = "")

/-- part_004 ClusterResource.Update: the update RPC is always issued from the
plan data; on success the name is taken from the returned CustomName, and
exactly when the prior token is null, unknown or the empty string a
ResetClusterToken RPC follows, whose empty returned token is a diagnostic
error and whose non-empty token is persisted; otherwise the stored token is
left as it was. The two RPC results arrive as parameters. -/
def ClusterResource.updateOp (data : ClusterResourceModel) (teamId : String)
    (updateResp : Except String (Option ProtoCluster))
    (resetResp : Except String String) : ClusterUpdateOutcome :=
  let calls0 := [RpcCall.updateCluster teamId data.id.valueString data.name.valueString]
  match updateResp with
  | .error _ => { calls := calls0, savedState := none, diagError := true }
  | .ok none => { calls := calls0, savedState := none, diagError := true }
  | .ok (some c) =>
    let data1 : ClusterResourceModel := { data with name := TFValue.value c.customName }
    if tokenEmpty data1.token then
      let calls1 := calls0 ++ [RpcCall.resetClusterToken teamId data1.id.valueString]
      match resetResp with
      | .error _ => { calls := calls1, savedState := none, diagError := true }
      | .ok t =>
        if t = "" then { calls := calls1, savedState := none, diagError := true }
        else
          { calls := calls1
          , savedState := some { data1 with token := TFValue.value t }
          , diagError := false }
    else { calls := calls0, savedState := some data1, diagError := false }

/- Node policy disruption schema defaults (node_policy.go Schema). -/

structure DisruptionBudgetConfig where
  reasons : Option (List String)
  nodes : Option String
  schedule : Option String
  duration : Option String
deriving DecidableEq, Repr

/-- The disruption nested block as configured (unset optional fields are none). -/
structure DisruptionConfig where
  consolidateAfter : Option String
  consolidationPolicy : Option String
  expireAfter : Option String
  ttlSecondsAfterEmpty : Option Int
  terminationGracePeriodSeconds : Option Int
  budgets : Option (List DisruptionBudgetConfig)
deriving DecidableEq, Repr

/-- The disruption block after the schema layer filled the defaults. -/
structure DisruptionPolicyRecord where
  consolidateAfter : String
  consolidationPolicy : String
  expireAfter : String
  ttlSecondsAfterEmpty : Int
  terminationGracePeriodSeconds : Int
  budgets : Option (List DisruptionBudgetConfig)
deriving DecidableEq, Repr

/-- The schema-layer default application for the disruption nested attribute
of NodePolicyResource.Schema: each Optional and Computed attribute carrying a
static Default receives it when the configuration leaves the field unset
(budgets carries no default); the framework applies this before any
conversion to the wire format runs. -/
def applyDisruptionDefaults (c : DisruptionConfig) : DisruptionPolicyRecord :=
  { consolidateAfter := c.consolidateAfter.getD "15m"
  , consolidationPolicy := c.consolidationPolicy.getD "WhenEmptyOrUnderutilized"
  , expireAfter := c.expireAfter.getD "720h"
  , ttlSecondsAfterEmpty := c.ttlSecondsAfterEmpty.getD 0
  , terminationGracePeriodSeconds := c.terminationGracePeriodSeconds.getD 0
  , budgets := c.budgets }

/- Provider configuration (part_005, DevzeroProvider.Configure). -/

structure DevzeroProviderModel where
  url : TFString
  teamId : TFString
  token : TFString
deriving DecidableEq, Repr

/-- The client configuration handed to the resources on success. -/
structure ClientConfig where
  url : String
  teamId : String
  token : String
deriving DecidableEq, Repr

/-- The per-setting resolution of Configure: default to the environment
variable, override with a non-null explicit configuration value. -/
def resolveSetting (explicit : TFString) (env : String) : String :=
  if !explicit.isNull then explicit.valueString else env

/-- part_005 DevzeroProvider.Configure: unknown values are diagnostics; the
three settings resolve from the environment with explicit override; an empty
resolved URL falls back to the built-in default, while an empty resolved team
ID or token is a diagnostic and no client is constructed. -/
def DevzeroProvider.configure (defaultURL : String) (envURL : String)
    (envTeamId : String) (envToken : String) (data : DevzeroProviderModel) :
    Except (List String) ClientConfig :=
  let unknownDiags :=
    (if data.url.isUnknown then ["Unknown Devzero API URL"] else []) ++
    (if data.teamId.isUnknown then ["Unknown Devzero Team ID"] else []) ++
    (if data.token.isUnknown then ["Unknown Devzero API Token"] else [])
  if unknownDiags ≠ [] then .error unknownDiags
  else
    let url0 := resolveSetting data.url envURL
    let teamId := resolveSetting data.teamId envTeamId
    let token := resolveSetting data.token envToken
    let url := if url0 = "" then defaultURL else url0
    let missingDiags :=
      (if teamId = "" then ["Missing Devzero Team ID"] else []) ++
      (if token = "" then ["Missing Devzero API Token"] else [])
    if missingDiags ≠ [] then .error missingDiags
    else .ok { url := url, teamId := teamId, token := token }

/- Concrete failing inputs used to evaluate the handlers. -/

/-- A workload policy model whose action trigger list fails wire conversion
(the element "bogus" is not a valid action trigger). -/
def wpBadModel : WorkloadPolicyResourceModel :=
  { id := TFValue.null, name := TFValue.null, description := TFValue.null
  , actionTriggers := TFValue.value [TFValue.value "bogus"]
  , cronSchedule := TFValue.null
  , detectionTriggers := TFValue.null
  , loopbackPeriodSeconds := TFValue.null, startupPeriodSeconds := TFValue.null
  , cpuVerticalScaling := none, memoryVerticalScaling := none
  , gpuVerticalScaling := none, gpuVramVerticalScaling := none
  , horizontalScaling := none
  , liveMigrationEnabled := TFValue.null
  , schedulerPlugins := TFValue.null
  , defragmentationSchedule := TFValue.null
  , minChangePercent := TFValue.null, minDataPoints := TFValue.null
  , stabilityCvMax := TFValue.null, hysteresisVsTarget := TFValue.null
  , driftDeltaPercent := TFValue.null, minVpaWindowDataPoints := TFValue.null
  , cooldownMinutes := TFValue.null }

/-- A node policy target model whose cluster-ID list fails wire conversion
(a null element cannot be converted to a Go string). -/
def nptBadModel : NodePolicyTargetResourceModel :=
  { id := TFValue.null, policyId := TFValue.null, name := TFValue.null
  , description := TFValue.null, enabled := TFValue.null
  , clusterIds := TFValue.value [TFValue.null] }

/-- A workload policy target model whose kind filter fails wire conversion. -/
def wptBadModel : WorkloadPolicyTargetResourceModel :=
  { id := TFValue.null, policyId := TFValue.null, name := TFValue.null
  , description := TFValue.null, priority := TFValue.null, enabled := TFValue.null
  , namespaceSelector := none, workloadSelector := none
  , kindFilter := TFValue.value [TFValue.value "bogus"]
  , namePattern := none
  , workloadNames := TFValue.null, nodeGroupNames := TFValue.null
  , clusterIds := TFValue.null }

/- Theorems. -/

/-- Claim C1, counterexample: the claim states that for wire enum values
outside the declared domain the decode functions return an explicit
"unspecified" sentinel rather than returning an empty string or silently
dropping the element; in fact labelSelectorOperatorToString and fromHPAMetric
return the empty string on every out-of-domain wire value (including the
UNSPECIFIED wire value itself), and fromKindFilter silently drops a wire
value outside its listed constants. -/
theorem claim_C1_counterexample :
    labelSelectorOperatorToString LABEL_SELECTOR_OPERATOR_UNSPECIFIED = "" ∧
    labelSelectorOperatorToString 7 = "" ∧
    fromHPAMetric HPA_METRIC_TYPE_UNSPECIFIED = "" ∧
    fromHPAMetric 9 = "" ∧
    fromKindFilter [42] = [] :=
  ⟨rfl, rfl, rfl, rfl, rfl⟩

/-- Claim C1, amended: every enum mapping of the provider is total and
injective on its declared domain of named values and never panics (all the
embedded functions are total); out of domain, however, fromKindFilter maps
only the UNSPECIFIED wire value to the sentinel "Unspecified" and silently
drops every other unlisted wire value, while labelSelectorOperatorToString
and fromHPAMetric return the empty string, not an "unspecified" sentinel. -/
theorem claim_C1_amended :
    (labelSelectorOperatorToString LABEL_SELECTOR_OPERATOR_IN = "In" ∧
     labelSelectorOperatorToString LABEL_SELECTOR_OPERATOR_NOT_IN = "NotIn" ∧
     labelSelectorOperatorToString LABEL_SELECTOR_OPERATOR_EXISTS = "Exists" ∧
     labelSelectorOperatorToString LABEL_SELECTOR_OPERATOR_DOES_NOT_EXIST = "DoesNotExist" ∧
     labelSelectorOperatorToString LABEL_SELECTOR_OPERATOR_GT = "Gt" ∧
     labelSelectorOperatorToString LABEL_SELECTOR_OPERATOR_LT = "Lt" ∧
     ([LABEL_SELECTOR_OPERATOR_IN, LABEL_SELECTOR_OPERATOR_NOT_IN,
       LABEL_SELECTOR_OPERATOR_EXISTS, LABEL_SELECTOR_OPERATOR_DOES_NOT_EXIST,
       LABEL_SELECTOR_OPERATOR_GT,
       LABEL_SELECTOR_OPERATOR_LT].map labelSelectorOperatorToString).Nodup ∧
     (["In", "NotIn", "Exists", "DoesNotExist", "Gt",
       "Lt"].map labelSelectorOperatorFromString).Nodup ∧
     fromKindFilter [K8S_OBJECT_KIND_POD] = [TFValue.value "Pod"] ∧
     fromKindFilter [K8S_OBJECT_KIND_JOB] = [TFValue.value "Job"] ∧
     fromKindFilter [K8S_OBJECT_KIND_DEPLOYMENT] = [TFValue.value "Deployment"] ∧
     fromKindFilter [K8S_OBJECT_KIND_STATEFUL_SET] = [TFValue.value "StatefulSet"] ∧
     fromKindFilter [K8S_OBJECT_KIND_DAEMON_SET] = [TFValue.value "DaemonSet"] ∧
     fromKindFilter [K8S_OBJECT_KIND_REPLICA_SET] = [TFValue.value "ReplicaSet"] ∧
     fromKindFilter [K8S_OBJECT_KIND_CRON_JOB] = [TFValue.value "CronJob"] ∧
     fromKindFilter [K8S_OBJECT_KIND_REPLICATION_CONTROLLER]
       = [TFValue.value "ReplicationController"] ∧
     fromKindFilter [K8S_OBJECT_KIND_ARGO_ROLLOUT] = [TFValue.value "Rollout"] ∧
     fromKindFilter [K8S_OBJECT_KIND_UNSPECIFIED] = [TFValue.value "Unspecified"] ∧
     ([K8S_OBJECT_KIND_UNSPECIFIED, K8S_OBJECT_KIND_POD, K8S_OBJECT_KIND_JOB,
       K8S_OBJECT_KIND_DEPLOYMENT, K8S_OBJECT_KIND_STATEFUL_SET,
       K8S_OBJECT_KIND_DAEMON_SET, K8S_OBJECT_KIND_REPLICA_SET,
       K8S_OBJECT_KIND_CRON_JOB, K8S_OBJECT_KIND_REPLICATION_CONTROLLER,
       K8S_OBJECT_KIND_ARGO_ROLLOUT].map (fun k => fromKindFilter [k])).Nodup ∧
     (["Pod", "Job", "Deployment", "StatefulSet", "DaemonSet", "ReplicaSet",
       "CronJob", "ReplicationController",
       "Rollout"].map (fun s => (kindFilterFromString s).toOption)).Nodup ∧
     fromHPAMetric HPA_METRIC_TYPE_CPU = "cpu" ∧
     fromHPAMetric HPA_METRIC_TYPE_MEMORY = "memory" ∧
     fromHPAMetric HPA_METRIC_TYPE_GPU = "gpu" ∧
     fromHPAMetric HPA_METRIC_TYPE_NETWORK = "network" ∧
     ([HPA_METRIC_TYPE_CPU, HPA_METRIC_TYPE_MEMORY, HPA_METRIC_TYPE_GPU,
       HPA_METRIC_TYPE_NETWORK].map fromHPAMetric).Nodup ∧
     instanceStorePolicyFromString "RAID0" = INSTANCE_STORE_POLICY_RAID0 ∧
     instanceStorePolicyToString INSTANCE_STORE_POLICY_RAID0 = "RAID0") ∧
    ((∀ op, op ∉ [LABEL_SELECTOR_OPERATOR_IN, LABEL_SELECTOR_OPERATOR_NOT_IN,
        LABEL_SELECTOR_OPERATOR_EXISTS, LABEL_SELECTOR_OPERATOR_DOES_NOT_EXIST,
        LABEL_SELECTOR_OPERATOR_GT, LABEL_SELECTOR_OPERATOR_LT] →
        labelSelectorOperatorToString op = "") ∧
     (∀ metric, metric ∉ [HPA_METRIC_TYPE_CPU, HPA_METRIC_TYPE_MEMORY,
        HPA_METRIC_TYPE_GPU, HPA_METRIC_TYPE_NETWORK] →
        fromHPAMetric metric = "") ∧
     (∀ kind rest, kind ∉ [K8S_OBJECT_KIND_UNSPECIFIED, K8S_OBJECT_KIND_POD,
        K8S_OBJECT_KIND_JOB, K8S_OBJECT_KIND_DEPLOYMENT, K8S_OBJECT_KIND_STATEFUL_SET,
        K8S_OBJECT_KIND_DAEMON_SET, K8S_OBJECT_KIND_REPLICA_SET, K8S_OBJECT_KIND_CRON_JOB,
        K8S_OBJECT_KIND_REPLICATION_CONTROLLER, K8S_OBJECT_KIND_ARGO_ROLLOUT] →
        fromKindFilter (kind :: rest) = fromKindFilter rest)) := by
  refine ⟨by decide, ?_, ?_, ?_⟩
  · intro op h
    simp only [List.mem_cons, List.not_mem_nil, or_false, not_or] at h
    obtain ⟨h1, h2, h3, h4, h5, h6⟩ := h
    simp [labelSelectorOperatorToString, LABEL_SELECTOR_OPERATOR_IN,
      LABEL_SELECTOR_OPERATOR_NOT_IN, LABEL_SELECTOR_OPERATOR_EXISTS,
      LABEL_SELECTOR_OPERATOR_DOES_NOT_EXIST, LABEL_SELECTOR_OPERATOR_GT,
      LABEL_SELECTOR_OPERATOR_LT] at h1 h2 h3 h4 h5 h6 ⊢
    simp [h1, h2, h3, h4, h5, h6]
  · intro metric h
    simp only [List.mem_cons, List.not_mem_nil, or_false, not_or] at h
    obtain ⟨h1, h2, h3, h4⟩ := h
    simp [fromHPAMetric, HPA_METRIC_TYPE_CPU, HPA_METRIC_TYPE_MEMORY,
      HPA_METRIC_TYPE_GPU, HPA_METRIC_TYPE_NETWORK] at h1 h2 h3 h4 ⊢
    simp [h1, h2, h3, h4]
  · intro kind rest h
    simp only [List.mem_cons, List.not_mem_nil, or_false, not_or] at h
    obtain ⟨h0, h1, h2, h3, h4, h5, h6, h7, h8, h9⟩ := h
    simp [fromKindFilter, K8S_OBJECT_KIND_UNSPECIFIED, K8S_OBJECT_KIND_POD,
      K8S_OBJECT_KIND_JOB, K8S_OBJECT_KIND_DEPLOYMENT, K8S_OBJECT_KIND_STATEFUL_SET,
      K8S_OBJECT_KIND_DAEMON_SET, K8S_OBJECT_KIND_REPLICA_SET, K8S_OBJECT_KIND_CRON_JOB,
      K8S_OBJECT_KIND_REPLICATION_CONTROLLER,
      K8S_OBJECT_KIND_ARGO_ROLLOUT] at h0 h1 h2 h3 h4 h5 h6 h7 h8 h9 ⊢
    simp [h0, h1, h2, h3, h4, h5, h6, h7, h8, h9]

/-- Claim C1, witness: the out-of-domain clauses of the amended claim applied
at the concrete wire values 8, 8 and 11. -/
theorem claim_C1_witness :
    labelSelectorOperatorToString 8 = "" ∧
    fromHPAMetric 8 = "" ∧
    fromKindFilter [11, K8S_OBJECT_KIND_POD] = [TFValue.value "Pod"] :=
  ⟨claim_C1_amended.2.1 8 (by decide), claim_C1_amended.2.2.1 8 (by decide),
   (claim_C1_amended.2.2.2 11 [K8S_OBJECT_KIND_POD] (by decide)).trans (by decide)⟩

/-- Claim C2: a NodePolicyTargetResourceModel with cluster_ids
["c1", "c2"] and enabled false encodes with toProto and decodes back with
fromProto to the same cluster_ids in the same order and enabled false. -/
theorem claim_C2 (m : NodePolicyTargetResourceModel) (teamId : String)
    (hc : m.clusterIds = TFValue.value [TFValue.value "c1", TFValue.value "c2"])
    (he : m.enabled = TFValue.value false) :
    ∃ p, m.toProto teamId = .ok p ∧
      (NodePolicyTargetResourceModel.fromProto p).clusterIds
        = TFValue.value [TFValue.value "c1", TFValue.value "c2"] ∧
      (NodePolicyTargetResourceModel.fromProto p).enabled = TFValue.value false := by
  refine ⟨{ targetId := m.id.valueString
          , name := m.name.valueString
          , description := m.description.valueString
          , teamId := teamId
          , clusterIds := ["c1", "c2"]
          , policyId := m.policyId.valueString
          , enabled := false }, ?_, rfl, rfl⟩
  simp only [NodePolicyTargetResourceModel.toProto, hc, he]
  rfl

/-- Claim C2, witness: the round trip evaluated on a concrete model. -/
theorem claim_C2_witness :
    ∃ p, NodePolicyTargetResourceModel.toProto
        { id := TFValue.null, policyId := TFValue.null, name := TFValue.null
        , description := TFValue.null, enabled := TFValue.value false
        , clusterIds := TFValue.value [TFValue.value "c1", TFValue.value "c2"] }
        "team" = .ok p ∧
      (NodePolicyTargetResourceModel.fromProto p).clusterIds
        = TFValue.value [TFValue.value "c1", TFValue.value "c2"] ∧
      (NodePolicyTargetResourceModel.fromProto p).enabled = TFValue.value false :=
  claim_C2 _ "team" rfl rfl

/-- Claim C3: a LabelSelector with exactly one match expression with key
tier, operator In and values [frontend, backend] encodes with toProto and
decodes back with fromProto (through any non-nil receiver) to one match
expression with the same key, operator string In and the same values in the
same order. -/
theorem claim_C3 (l : LabelSelector) (mls : List (String × String))
    (hml : getStringMap (tfElements l.matchLabels) = .ok mls)
    (he : l.matchExpressions = TFValue.value
      [{ key := TFValue.value "tier", operator := TFValue.value "In"
       , values := TFValue.value [TFValue.value "frontend", TFValue.value "backend"] }]) :
    ∃ p, LabelSelector.toProto (some l) = .ok (some p) ∧
      p.matchExpressions = [{ key := "tier", operator := LABEL_SELECTOR_OPERATOR_IN
                            , values := ["frontend", "backend"] }] ∧
      (∀ init, LabelSelector.fromProtoCaller (some init) (some p)
        = some (LabelSelector.decodeProto p)) ∧
      (LabelSelector.decodeProto p).matchExpressions = TFValue.value
        [{ key := TFValue.value "tier", operator := TFValue.value "In"
         , values := TFValue.value [TFValue.value "frontend", TFValue.value "backend"] }] := by
  refine ⟨{ matchLabels := mls
          , matchExpressions := [{ key := "tier", operator := LABEL_SELECTOR_OPERATOR_IN
                                 , values := ["frontend", "backend"] }] }, ?_, rfl,
          fun init => rfl, rfl⟩
  simp only [LabelSelector.toProto, hml, he]
  rfl

/-- Claim C3, witness: the round trip evaluated on a concrete selector. -/
theorem claim_C3_witness :
    ∃ p, LabelSelector.toProto (some
        { matchLabels := TFValue.null
        , matchExpressions := TFValue.value
            [{ key := TFValue.value "tier", operator := TFValue.value "In"
             , values := TFValue.value
                 [TFValue.value "frontend", TFValue.value "backend"] }] }) = .ok (some p) ∧
      p.matchExpressions = [{ key := "tier", operator := LABEL_SELECTOR_OPERATOR_IN
                            , values := ["frontend", "backend"] }] ∧
      (∀ init, LabelSelector.fromProtoCaller (some init) (some p)
        = some (LabelSelector.decodeProto p)) ∧
      (LabelSelector.decodeProto p).matchExpressions = TFValue.value
        [{ key := TFValue.value "tier", operator := TFValue.value "In"
         , values := TFValue.value [TFValue.value "frontend", TFValue.value "backend"] }] :=
  claim_C3 _ [] rfl rfl

/-- Claim C4: applying the schema-layer defaults to a present disruption
block with every field unset yields consolidate_after 15m,
consolidation_policy WhenEmptyOrUnderutilized, expire_after 720h,
ttl_seconds_after_empty 0 and termination_grace_period_seconds 0, before any
conversion to the wire format runs. -/
theorem claim_C4 :
    applyDisruptionDefaults
      { consolidateAfter := none, consolidationPolicy := none, expireAfter := none
      , ttlSecondsAfterEmpty := none, terminationGracePeriodSeconds := none
      , budgets := none }
      = { consolidateAfter := "15m"
        , consolidationPolicy := "WhenEmptyOrUnderutilized"
        , expireAfter := "720h"
        , ttlSecondsAfterEmpty := 0
        , terminationGracePeriodSeconds := 0
        , budgets := none } := rfl

/-- Claim C5: the Delete handlers of NodePolicy and NodePolicyTarget issue
no RPC at all, so the remote record tables are untouched and a fetch of the
same id from the backend still finds the record; the handlers only log a
warning and let the framework drop the resource from local state. -/
theorem claim_C5 :
    (∀ s, (NodePolicyResource.deleteOp s).calls = []) ∧
    (∀ s, (NodePolicyTargetResource.deleteOp s).calls = []) ∧
    (∀ b s, runCalls b (NodePolicyResource.deleteOp s).calls = b) ∧
    (∀ b s, runCalls b (NodePolicyTargetResource.deleteOp s).calls = b) ∧
    (∀ b s id, (runCalls b (NodePolicyResource.deleteOp s).calls).hasNodePolicy id
      = b.hasNodePolicy id) ∧
    (∀ b s id, (runCalls b (NodePolicyTargetResource.deleteOp s).calls).hasNodePolicyTarget id
      = b.hasNodePolicyTarget id) ∧
    (NodePolicyResource.deleteOp true).warned = true ∧
    (NodePolicyResource.deleteOp true).removedFromState = true ∧
    (NodePolicyTargetResource.deleteOp true).warned = true ∧
    (NodePolicyTargetResource.deleteOp true).removedFromState = true := by
  refine ⟨fun s => ?_, fun s => ?_, fun b s => ?_, fun b s => ?_,
          fun b s id => ?_, fun b s id => ?_, rfl, rfl, rfl, rfl⟩ <;>
    cases s <;> rfl

/-- Evaluation of ClusterResource.updateOp with a non-empty known prior token. -/
theorem clusterUpdateOp_noreset (data : ClusterResourceModel) (teamId : String)
    (c : ProtoCluster) (rr : Except String String)
    (h : tokenEmpty data.token = false) :
    ClusterResource.updateOp data teamId (.ok (some c)) rr
      = { calls := [RpcCall.updateCluster teamId data.id.valueString data.name.valueString]
        , savedState := some { id := data.id, name := TFValue.value c.customName
                             , token := data.token }
        , diagError := false } := by
  simp [ClusterResource.updateOp, h]

/-- Evaluation of ClusterResource.updateOp with an empty prior token and a
failing reset RPC. -/
theorem clusterUpdateOp_reset_err (data : ClusterResourceModel) (teamId : String)
    (c : ProtoCluster) (e : String) (h : tokenEmpty data.token = true) :
    ClusterResource.updateOp data teamId (.ok (some c)) (.error e)
      = { calls := [RpcCall.updateCluster teamId data.id.valueString data.name.valueString,
                    RpcCall.resetClusterToken teamId data.id.valueString]
        , savedState := none, diagError := true } := by
  simp [ClusterResource.updateOp, h]

/-- Evaluation of ClusterResource.updateOp with an empty prior token and a
reset RPC returning the empty token. -/
theorem clusterUpdateOp_reset_empty (data : ClusterResourceModel) (teamId : String)
    (c : ProtoCluster) (h : tokenEmpty data.token = true) :
    ClusterResource.updateOp data teamId (.ok (some c)) (.ok "")
      = { calls := [RpcCall.updateCluster teamId data.id.valueString data.name.valueString,
                    RpcCall.resetClusterToken teamId data.id.valueString]
        , savedState := none, diagError := true } := by
  simp [ClusterResource.updateOp, h]

/-- Evaluation of ClusterResource.updateOp with an empty prior token and a
reset RPC returning a non-empty token. -/
theorem clusterUpdateOp_reset_ok (data : ClusterResourceModel) (teamId : String)
    (c : ProtoCluster) (t : String) (h : tokenEmpty data.token = true)
    (ht : ¬ t = "") :
    ClusterResource.updateOp data teamId (.ok (some c)) (.ok t)
      = { calls := [RpcCall.updateCluster teamId data.id.valueString data.name.valueString,
                    RpcCall.resetClusterToken teamId data.id.valueString]
        , savedState := some { id := data.id, name := TFValue.value c.customName
                             , token := TFValue.value t }
        , diagError := false } := by
  simp [ClusterResource.updateOp, h, ht]

/-- Claim C6: on a successful cluster update RPC, the token-reset RPC is
issued if and only if the prior token is null, unknown or empty; an empty
returned token is a diagnostics error with no state saved, a non-empty
returned token is persisted; with a non-empty known prior token no reset RPC
is made and the stored token is unchanged. -/
theorem claim_C6 (data : ClusterResourceModel) (teamId : String)
    (c : ProtoCluster) (resetResp : Except String String) :
    (tokenEmpty data.token = true ↔
      RpcCall.resetClusterToken teamId data.id.valueString
        ∈ (ClusterResource.updateOp data teamId (.ok (some c)) resetResp).calls) ∧
    (tokenEmpty data.token = true → resetResp = .ok "" →
      (ClusterResource.updateOp data teamId (.ok (some c)) resetResp).diagError = true ∧
      (ClusterResource.updateOp data teamId (.ok (some c)) resetResp).savedState = none) ∧
    (∀ t, tokenEmpty data.token = true → t ≠ "" → resetResp = .ok t →
      ∃ saved, (ClusterResource.updateOp data teamId (.ok (some c)) resetResp).savedState
          = some saved ∧ saved.token = TFValue.value t) ∧
    (tokenEmpty data.token = false →
      (ClusterResource.updateOp data teamId (.ok (some c)) resetResp).calls
        = [RpcCall.updateCluster teamId data.id.valueString data.name.valueString] ∧
      ∃ saved, (ClusterResource.updateOp data teamId (.ok (some c)) resetResp).savedState
          = some saved ∧ saved.token = data.token) := by
  by_cases htok : tokenEmpty data.token = true
  · refine ⟨⟨fun _ => ?_, fun _ => htok⟩, fun _ hr => ?_, fun t _ ht hr => ?_,
            fun hf => ?_⟩
    · cases resetResp with
      | error e => rw [clusterUpdateOp_reset_err data teamId c e htok]; simp
      | ok t =>
        by_cases h0 : t = ""
        · subst h0; rw [clusterUpdateOp_reset_empty data teamId c htok]; simp
        · rw [clusterUpdateOp_reset_ok data teamId c t htok h0]; simp
    · subst hr
      rw [clusterUpdateOp_reset_empty data teamId c htok]
      exact ⟨rfl, rfl⟩
    · subst hr
      rw [clusterUpdateOp_reset_ok data teamId c t htok ht]
      exact ⟨_, rfl, rfl⟩
    · rw [hf] at htok
      cases htok
  · have htok2 : tokenEmpty data.token = false := by
      cases h2 : tokenEmpty data.token with
      | false => rfl
      | true => exact absurd h2 htok
    refine ⟨⟨fun hh => absurd hh htok, fun hmem => ?_⟩, fun hh => absurd hh htok,
            fun t hh => absurd hh htok, fun _ => ?_⟩
    · exfalso
      rw [clusterUpdateOp_noreset data teamId c resetResp htok2] at hmem
      simp at hmem
    · rw [clusterUpdateOp_noreset data teamId c resetResp htok2]
      exact ⟨rfl, _, rfl, rfl⟩

/-- Claim C6, witness: both branches evaluated at concrete models, a null
prior token rotating to the returned token and a non-empty known prior token
left unchanged with no reset call. -/
theorem claim_C6_witness :
    (∃ saved, (ClusterResource.updateOp
        { id := TFValue.value "cid", name := TFValue.value "nm", token := TFValue.null }
        "team" (.ok (some { id := "cid", name := "n", customName := "cn" }))
        (.ok "newtok")).savedState = some saved ∧ saved.token = TFValue.value "newtok") ∧
    ((ClusterResource.updateOp
        { id := TFValue.value "cid", name := TFValue.value "nm", token := TFValue.value "tok" }
        "team" (.ok (some { id := "cid", name := "n", customName := "cn" }))
        (.ok "x")).calls = [RpcCall.updateCluster "team" "cid" "nm"]) :=
  ⟨(claim_C6
      { id := TFValue.value "cid", name := TFValue.value "nm", token := TFValue.null }
      "team" { id := "cid", name := "n", customName := "cn" }
      (.ok "newtok")).2.2.1 "newtok" rfl (by decide) rfl,
   ((claim_C6
      { id := TFValue.value "cid", name := TFValue.value "nm", token := TFValue.value "tok" }
      "team" { id := "cid", name := "n", customName := "cn" }
      (.ok "x")).2.2.2 rfl).1⟩

/-- Claim C7: each provider setting resolves from its environment variable
when the explicit configuration value is null, an explicit non-null value
takes precedence; with no unknown values, an empty resolved team ID or token
yields an error and no client, while on success the client carries the
resolved values with an empty resolved URL replaced by the built-in default. -/
theorem claim_C7 (defaultURL envURL envTeamId envToken : String)
    (data : DevzeroProviderModel)
    (hu : data.url.isUnknown = false) (ht : data.teamId.isUnknown = false)
    (hk : data.token.isUnknown = false) :
    (data.url = TFValue.null → resolveSetting data.url envURL = envURL) ∧
    (∀ u, data.url = TFValue.value u → resolveSetting data.url envURL = u) ∧
    (data.teamId = TFValue.null → resolveSetting data.teamId envTeamId = envTeamId) ∧
    (∀ u, data.teamId = TFValue.value u → resolveSetting data.teamId envTeamId = u) ∧
    (data.token = TFValue.null → resolveSetting data.token envToken = envToken) ∧
    (∀ u, data.token = TFValue.value u → resolveSetting data.token envToken = u) ∧
    (resolveSetting data.teamId envTeamId = "" →
      ∀ cfg, DevzeroProvider.configure defaultURL envURL envTeamId envToken data
        ≠ .ok cfg) ∧
    (resolveSetting data.token envToken = "" →
      ∀ cfg, DevzeroProvider.configure defaultURL envURL envTeamId envToken data
        ≠ .ok cfg) ∧
    (resolveSetting data.teamId envTeamId ≠ "" → resolveSetting data.token envToken ≠ "" →
      DevzeroProvider.configure defaultURL envURL envTeamId envToken data
        = .ok { url := if resolveSetting data.url envURL = "" then defaultURL
                       else resolveSetting data.url envURL
              , teamId := resolveSetting data.teamId envTeamId
              , token := resolveSetting data.token envToken }) := by
  refine ⟨fun h => by simp [resolveSetting, h, TFValue.isNull],
          fun u h => by simp [resolveSetting, h, TFValue.isNull, TFString.valueString,
            TFValue.valueOr],
          fun h => by simp [resolveSetting, h, TFValue.isNull],
          fun u h => by simp [resolveSetting, h, TFValue.isNull, TFString.valueString,
            TFValue.valueOr],
          fun h => by simp [resolveSetting, h, TFValue.isNull],
          fun u h => by simp [resolveSetting, h, TFValue.isNull, TFString.valueString,
            TFValue.valueOr],
          fun h cfg => ?_, fun h cfg => ?_, fun h1 h2 => ?_⟩
  · simp [DevzeroProvider.configure, hu, ht, hk, h]
  · simp [DevzeroProvider.configure, hu, ht, hk, h]
  · simp [DevzeroProvider.configure, hu, ht, hk, h1, h2]

/-- Claim C7, witness: configuration evaluated at concrete inputs where the
URL comes from the environment and team ID and token are explicit. -/
theorem claim_C7_witness :
    DevzeroProvider.configure "https://default" "https://env" "et" "ek"
      { url := TFValue.null, teamId := TFValue.value "T", token := TFValue.value "K" }
      = .ok { url := "https://env", teamId := "T", token := "K" } := by
  have h := (claim_C7 "https://default" "https://env" "et" "ek"
    { url := TFValue.null, teamId := TFValue.value "T", token := TFValue.value "K" }
    rfl rfl rfl).2.2.2.2.2.2.2.2 (by decide) (by decide)
  simpa using h

/-- Claim C8: the claim states that every resource Create or Update returns
after a conversion diagnostic before any RPC is attempted; NodePolicy,
NodePolicyTarget and WorkloadPolicyTarget do, but WorkloadPolicyResource
Create and Update never consult the diagnostics after toProto and issue the
RPC anyway, with a nil policy in the request, contradicting the documented
error design; evaluated here at concrete failing inputs. -/
theorem claim_C8 :
    (WorkloadPolicyResourceModel.toProto wpBadModel "team").2 = true ∧
    WorkloadPolicyResource.createOp wpBadModel "team"
      = ([RpcCall.createWorkloadRecommendationPolicy "team" none], true) ∧
    WorkloadPolicyResource.updateOp wpBadModel "team"
      = ([RpcCall.updateWorkloadRecommendationPolicy "team" none], true) ∧
    NodePolicyTargetResource.createOp nptBadModel "team" = ([], true) ∧
    NodePolicyTargetResource.updateOp nptBadModel "team" = ([], true) ∧
    NodePolicyResource.createOp true true "team" = ([], true) ∧
    NodePolicyResource.updateOp true true "team" = ([], true) ∧
    WorkloadPolicyTargetResource.createOp wptBadModel "team" = ([], true) ∧
    WorkloadPolicyTargetResource.updateOp wptBadModel "team" = ([], true) :=
  ⟨rfl, rfl, rfl, rfl, rfl, rfl, rfl, rfl, rfl⟩

/-- Claim C9: the pointer-receiver fromProto decoders of the optional nested
messages leave the caller field unchanged on a nil wire message, and discard
the decoded values on a nil receiver with a non-nil wire message, for
LabelSelector, RegexPattern, VerticalScalingOptions and
HorizontalScalingOptions. -/
theorem claim_C9 :
    (∀ m, LabelSelector.fromProtoCaller m none = m) ∧
    (∀ w, LabelSelector.fromProtoCaller none (some w) = none) ∧
    (∀ m, RegexPattern.fromProtoCaller m none = m) ∧
    (∀ w, RegexPattern.fromProtoCaller none (some w) = none) ∧
    (∀ o, VerticalScalingOptions.fromProtoCaller o none = o) ∧
    (∀ w, VerticalScalingOptions.fromProtoCaller none (some w) = none) ∧
    (∀ o, HorizontalScalingOptions.fromProtoCaller o none = o) ∧
    (∀ w, HorizontalScalingOptions.fromProtoCaller none (some w) = none) := by
  refine ⟨fun m => ?_, fun w => rfl, fun m => ?_, fun w => rfl,
          fun o => ?_, fun w => rfl, fun o => ?_, fun w => rfl⟩
  · cases m <;> rfl
  · cases m <;> rfl
  · cases o <;> rfl
  · cases o <;> rfl

/-- Claim C10: WorkloadPolicyResourceModel.fromProto dereferences the
optional cron schedule and defragmentation schedule wire pointers without a
nil check: the decode (and with it the Read handler on a successful response)
completes without a panic exactly when both pointers are non-nil. -/
theorem claim_C10 :
    (∀ (m : WorkloadPolicyResourceModel) (policy : ProtoWorkloadRecommendationPolicy),
      (m.fromProto policy).isSome ↔
        (policy.cronSchedule.isSome ∧ policy.defragmentationSchedule.isSome)) ∧
    (∀ (m : WorkloadPolicyResourceModel) (policy : ProtoWorkloadRecommendationPolicy),
      (WorkloadPolicyResource.readOp m (.ok (some policy))).isSome ↔
        (policy.cronSchedule.isSome ∧ policy.defragmentationSchedule.isSome)) := by
  have base : ∀ (m : WorkloadPolicyResourceModel)
      (policy : ProtoWorkloadRecommendationPolicy),
      (m.fromProto policy).isSome ↔
        (policy.cronSchedule.isSome ∧ policy.defragmentationSchedule.isSome) := by
    intro m policy
    cases hc : policy.cronSchedule <;> cases hd : policy.defragmentationSchedule <;>
      simp [WorkloadPolicyResourceModel.fromProto, hc, hd]
  refine ⟨base, fun m policy => ?_⟩
  cases hf : m.fromProto policy with
  | none =>
    have := (base m policy).symm
    simp [WorkloadPolicyResource.readOp, hf] at this ⊢
    simpa [hf] using (base m policy)
  | some updated =>
    simp [WorkloadPolicyResource.readOp, hf]
    simpa [hf] using (base m policy)

end Devzero
